import Mathlib

/-!
Verification of the DATAQ DI-718B-E(S) client driver (src/dataq.c) against its
natural-language specification.  The C functions are shallowly embedded as pure
Lean functions: machine integers become `Nat`/`Int`, the receive buffer and the
caller's `values[]` array become lists, and results of the blocking socket
calls (`write`, `recv`) are passed in as explicit parameters, since they are
inputs from the operating system as far as the driver logic is concerned.
-/

namespace Dataq

/-! ### Error codes (sysexits.h); the driver returns their negations on failure. -/

def EX_OK : Int := 0
def EX_DATAERR : Int := 65
def EX_NOHOST : Int := 68
def EX_UNAVAILABLE : Int := 69
def EX_IOERR : Int := 74
def EX_PROTOCOL : Int := 76

def MAXCHAN : Nat := 32

instance exceptDecEq {ε α : Type} [DecidableEq ε] [DecidableEq α] :
    DecidableEq (Except ε α) := fun x y =>
  match x, y with
  | Except.error a, Except.error b =>
      if h : a = b then isTrue (by rw [h])
      else isFalse (by intro hh; cases hh; exact h rfl)
  | Except.error _, Except.ok _ => isFalse (by intro h; cases h)
  | Except.ok _, Except.error _ => isFalse (by intro h; cases h)
  | Except.ok a, Except.ok b =>
      if h : a = b then isTrue (by rw [h])
      else isFalse (by intro hh; cases hh; exact h rfl)

/-! ### Frame codec (dataq_recv, lines 243-261 of dataq.c) -/

/-- Sync-flag mask of a 16-bit channel word: `v & 0x0101` (dataq.c line 248). -/
def lsbs (v : Nat) : Nat := v &&& 0x0101

/-- The sync pattern a word at channel `c` must carry: `0x0100` at channel 0,
`0x0101` elsewhere (dataq.c lines 249-250). -/
def expectedSync (c : Nat) : Nat := if c = 0 then 0x0100 else 0x0101

/-- 14-bit measurement extraction from a 16-bit word:
`((v & 0xFE00) >> 2) | ((v & 0x00FE) >> 1)` (dataq.c line 256). -/
def extract14 (v : Nat) : Nat := ((v &&& 0xFE00) >>> 2) ||| ((v &&& 0x00FE) >>> 1)

/-- Decoding one channel word, with the sync check of dataq.c lines 248-253:
on a sync mismatch the decode fails, and (mirroring the `LSB mismatch @ %d: %04X`
diagnostic) the error carries the channel index and the raw word. -/
def decodeWord (c : Nat) (v : Nat) : Except (Nat × Nat) Nat :=
  if (c = 0 ∧ lsbs v ≠ 0x0100) ∨ (c ≠ 0 ∧ lsbs v ≠ 0x0101) then Except.error (c, v)
  else Except.ok (extract14 v)

/-- Re-encoding of a 14-bit measurement into a 16-bit word, as described by the
round-trip property of the spec: high 7 bits of `m` into word bits 15:9, low
7 bits into word bits 7:1, sync flag bits 8 and 0 set for channel `c`. -/
def encodeWord (c : Nat) (m : Nat) : Nat :=
  ((m >>> 7) <<< 9) ||| ((m &&& 0x7F) <<< 1) ||| expectedSync c

/-- Calibration to engineering units:
`fudge * fullscale * (((1.0 * v14) / (1 << 13)) - 1)` (dataq.c line 259),
modelled over `ℚ` (exact real-valued arithmetic in place of C `float`). -/
def calibrate (v : Nat) (fullscale fudge : ℚ) : ℚ :=
  fudge * fullscale * ((v : ℚ) / 2 ^ 13 - 1)

/-! ### Command/echo protocol (dataq_cmd, dataq.c lines 68-111)

The formatted command text (the result `vsnprintf` would produce, untruncated)
is a parameter, as are the results of the `write` and `recv` calls.  The model
of the comparison against the stored buffer text is exact in the in-bounds
regime `text.length ≤ 254` established by claim C10. -/

/-- Result of the echo `recv`: a negative return, or the bytes actually read
(`n` = their count; `MSG_WAITALL` reads at most the requested length). -/
inductive IoRes where
  | err
  | got (bs : List Nat)
deriving DecidableEq

/-- The 256-byte command buffer after `cmd[256] = {0}` and
`vsnprintf(&cmd[1], sizeof(cmd) - 1, ...)` (dataq.c lines 70-75): a leading
null byte, then at most 254 bytes of the formatted text, then zero fill. -/
def cmdBuf (text : List Nat) : List Nat :=
  0 :: (text.take 254 ++ List.replicate (255 - min text.length 254) 0)

/-- The byte count requested from `write(sockfd, cmd, 1 + len)`, where `len`
is the untruncated length reported by `vsnprintf` (dataq.c lines 75-78). -/
def writeLen (text : List Nat) : Nat := 1 + text.length

/-- Number of meaningful bytes actually stored in the buffer: the null prefix
plus the at most 254 bytes of text `vsnprintf` kept. -/
def storedLen (text : List Nat) : Nat := 1 + min text.length 254

/-- The bytes the `write` call submits: the first `1 + len` bytes of the
command buffer. -/
def cmdWire (text : List Nat) : List Nat := (cmdBuf text).take (writeLen text)

/-- The echo-verification result of dataq_cmd (dataq.c lines 78-110): classify
the write result, then compare the echo read back against the formatted text. -/
def dataq_cmd (text : List Nat) (wr : Int) (rd : IoRes) : Int :=
  if wr < 0 then -EX_IOERR
  else if wr = 0 then -EX_UNAVAILABLE
  else
    match rd with
    | IoRes.err => -EX_IOERR
    | IoRes.got bs =>
      if bs.length = 0 then -EX_UNAVAILABLE
      else if bs.length ≠ text.length then -EX_PROTOCOL
      else if bs ≠ text then -EX_PROTOCOL
      else EX_OK

/-- An uppercase hexadecimal ASCII digit, as printf `%X` renders it. -/
def hexDigit (d : Nat) : Nat := if d < 10 then 48 + d else 55 + d

/-- Expansion of the printf format `X%02X` at a byte argument (dataq.c line
178): ASCII letter X (88) followed by two uppercase hex digits. -/
def fmt_X02X (x : Nat) : List Nat := [88, hexDigit (x / 16 % 16), hexDigit (x % 16)]

/-! ### Streaming receiver (dataq_recv, dataq.c lines 203-265) -/

/-- The outcome of one dataq_recv call, keeping the diagnostic channel index of
a sync failure (the C function returns only the error code below, printing the
channel in the `LSB mismatch` message). -/
inductive RecvOutcome where
  | signalAbort (sig : Nat)
  | ioError
  | eof
  | shortRead
  | syncError (c : Nat)
  | ok
deriving DecidableEq

/-- The C return code of each outcome (dataq.c lines 224, 230-241, 252, 264). -/
def recvCode : RecvOutcome → Int
  | RecvOutcome.signalAbort _ => -EX_UNAVAILABLE
  | RecvOutcome.ioError => -EX_IOERR
  | RecvOutcome.eof => -EX_UNAVAILABLE
  | RecvOutcome.shortRead => -EX_PROTOCOL
  | RecvOutcome.syncError _ => -EX_PROTOCOL
  | RecvOutcome.ok => EX_OK

/-- The per-channel decode loop of dataq.c lines 243-262, threading the
caller's `values[]` array: each successfully decoded channel writes its
calibrated value at index `c` before the next channel is checked; the first
sync mismatch stops the loop, reporting its channel index. -/
def decodeLoop (fullscale fudge : ℚ) : Nat → List Nat → List ℚ → List ℚ × Option Nat
  | _, [], values => (values, none)
  | c, v :: rest, values =>
    if (c = 0 ∧ lsbs v ≠ 0x0100) ∨ (c ≠ 0 ∧ lsbs v ≠ 0x0101) then (values, some c)
    else
      decodeLoop fullscale fudge (c + 1) rest
        (values.set c (calibrate (extract14 v) fullscale fudge))

/-- The decode phase entered once a full frame was read. -/
def decodePhase (fullscale fudge : ℚ) (words : List Nat) (values : List ℚ) :
    List ℚ × RecvOutcome :=
  match decodeLoop fullscale fudge 0 words values with
  | (vals, some c) => (vals, RecvOutcome.syncError c)
  | (vals, none) => (vals, RecvOutcome.ok)

/-- dataq_recv (dataq.c lines 203-265): `signalled` is the global flag as the
signal check at line 221 sees it, `n` the result of
`recv(sockfd, buf, 2 * n_chans, MSG_WAITALL)`, `buf` the channel words it
stored, and `values` the caller's output array. -/
def dataq_recv (signalled : Nat) (n : Int) (buf : List Nat) (n_chans : Nat)
    (fullscale fudge : ℚ) (values : List ℚ) : List ℚ × RecvOutcome :=
  if signalled ≠ 0 then (values, RecvOutcome.signalAbort signalled)
  else if n < 0 then (values, RecvOutcome.ioError)
  else if n = 0 then (values, RecvOutcome.eof)
  else if n ≠ 2 * (n_chans : Int) then (values, RecvOutcome.shortRead)
  else decodePhase fullscale fudge (buf.take n_chans) values

/-- The value of the global `signalled` flag after a dataq_recv call during
which no new signal is delivered: the driver body (dataq.c lines 203-265)
contains no assignment to the flag — only the `trap` handler (lines 55-58)
ever writes it — so it is unchanged. -/
def signalledAfterRecv (signalled : Nat) : Nat := signalled

/-- Whether a dataq_recv call re-raises a signal: it calls `raise(signalled)`
exactly when the flag is nonzero (dataq.c lines 221-222). -/
def raisesSignal (signalled : Nat) : Bool := signalled != 0

/-! ### Effect trace of dataq_recv (dataq.c lines 211-228)

The observable action sequence around the blocking read: handler
installations, the read, handler restorations, then either re-raise plus
return, or timestamp capture plus return. -/

def SIGHUP : Nat := 1
def SIGINT : Nat := 2
def SIGTERM : Nat := 15

inductive Ev where
  | install (sig : Nat)
  | restore (sig : Nat)
  | readCall
  | raiseSig (sig : Nat)
  | timestamp
  | ret (code : Int)
deriving DecidableEq

/-- The action trace of one dataq_recv call (dataq.c lines 211-264): install
the three temporary handlers, perform the blocking read, restore the previous
handlers, and then either re-raise the observed signal and return Unavailable,
or capture the timestamp and return the read classification. -/
def recvTrace (signalled : Nat) (n : Int) (buf : List Nat) (n_chans : Nat)
    (fullscale fudge : ℚ) (values : List ℚ) : List Ev :=
  [Ev.install SIGINT, Ev.install SIGHUP, Ev.install SIGTERM, Ev.readCall,
   Ev.restore SIGINT, Ev.restore SIGHUP, Ev.restore SIGTERM] ++
  (if signalled ≠ 0 then [Ev.raiseSig signalled, Ev.ret (-EX_UNAVAILABLE)]
   else
    [Ev.timestamp,
     Ev.ret (recvCode (dataq_recv 0 n buf n_chans fullscale fudge values).2)])

def isRaise : Ev → Bool
  | Ev.raiseSig _ => true
  | _ => false

def isRet : Ev → Bool
  | Ev.ret _ => true
  | _ => false

/-- The events of a trace strictly after its first return event. -/
def afterRet (t : List Ev) : List Ev := (t.dropWhile (fun e => !(isRet e))).drop 1

/-! ### Connection establishment (dataq_connect, dataq.c lines 121-185)

The outcomes of the system and transport calls are inputs; the model records
which externally visible actions were performed, in order. -/

inductive ConnEv where
  | socketCreate
  | setRecvTimeout
  | dnsLookup
  | tcpConnect
  | writeStop
  | drainFlush
  | cmdX
  | cmdM
  | cmdL
  | cmdC
  | cmdS
deriving DecidableEq

/-- Results the environment hands to each step of dataq_connect. -/
structure ConnWorld where
  socketOk : Bool
  sockoptOk : Bool
  dnsOk : Bool
  connectOk : Bool
  writeStopOk : Bool
  cmdResX : Int
  cmdResM : Int
  cmdResL : Int
  cmdResC : Int
  cmdResS : Int
  sockfd : Int

/-- dataq_connect (dataq.c lines 121-185): the channel-count guard, then
socket creation, receive-timeout option, DNS lookup, TCP connect, the
fire-and-forget stop write, the drain, and the five echo-checked
initialization commands, aborting with the appropriate code at the first
failure.  Returns the result code (the socket fd on success) and the list of
actions performed. -/
def dataq_connect (n_chans : Int) (w : ConnWorld) : Int × List ConnEv :=
  if n_chans > (MAXCHAN : Int) then (-EX_DATAERR, [])
  else if ¬ w.socketOk then (-EX_UNAVAILABLE, [ConnEv.socketCreate])
  else if ¬ w.sockoptOk then
    (-EX_UNAVAILABLE, [ConnEv.socketCreate, ConnEv.setRecvTimeout])
  else if ¬ w.dnsOk then
    (-EX_NOHOST, [ConnEv.socketCreate, ConnEv.setRecvTimeout, ConnEv.dnsLookup])
  else if ¬ w.connectOk then
    (-EX_UNAVAILABLE,
     [ConnEv.socketCreate, ConnEv.setRecvTimeout, ConnEv.dnsLookup,
      ConnEv.tcpConnect])
  else if ¬ w.writeStopOk then
    (-EX_IOERR,
     [ConnEv.socketCreate, ConnEv.setRecvTimeout, ConnEv.dnsLookup,
      ConnEv.tcpConnect, ConnEv.writeStop])
  else
    let pre := [ConnEv.socketCreate, ConnEv.setRecvTimeout, ConnEv.dnsLookup,
                ConnEv.tcpConnect, ConnEv.writeStop, ConnEv.drainFlush]
    if w.cmdResX ≠ EX_OK then (w.cmdResX, pre ++ [ConnEv.cmdX])
    else if w.cmdResM ≠ EX_OK then (w.cmdResM, pre ++ [ConnEv.cmdX, ConnEv.cmdM])
    else if w.cmdResL ≠ EX_OK then
      (w.cmdResL, pre ++ [ConnEv.cmdX, ConnEv.cmdM, ConnEv.cmdL])
    else if w.cmdResC ≠ EX_OK then
      (w.cmdResC, pre ++ [ConnEv.cmdX, ConnEv.cmdM, ConnEv.cmdL, ConnEv.cmdC])
    else if w.cmdResS ≠ EX_OK then
      (w.cmdResS,
       pre ++ [ConnEv.cmdX, ConnEv.cmdM, ConnEv.cmdL, ConnEv.cmdC, ConnEv.cmdS])
    else
      (w.sockfd,
       pre ++ [ConnEv.cmdX, ConnEv.cmdM, ConnEv.cmdL, ConnEv.cmdC, ConnEv.cmdS])

/-! ### Shared helper lemmas -/

/-- For a formatted text of at most 254 bytes the submitted wire bytes are the
null byte followed by the full text. -/
theorem cmdWire_short (text : List Nat) (h : text.length ≤ 254) :
    cmdWire text = 0 :: text := by
  unfold cmdWire cmdBuf writeLen
  have htake : text.take 254 = text := List.take_of_length_le h
  rw [Nat.add_comm 1 text.length, List.take_succ_cons, htake,
    List.take_append_eq_append_take, List.take_length, Nat.sub_self,
    List.take_zero, List.append_nil]

/-! ### Claim theorems -/

/-- Claim C1: decoding a 16-bit channel word validates the sync bits by
computing the word masked with 0x0101; at channel 0 the masked value must be
0x0100 and at any other channel 0x0101, in which case the word decodes
successfully to its extracted 14-bit value; any other masked value makes the
decode of that word fail with the sync error carrying the failing channel
index (and the raw word), producing no successful result. -/
theorem sync_validation (c v : Nat) :
    (v &&& 0x0101 = (if c = 0 then 0x0100 else 0x0101) →
        decodeWord c v = Except.ok (extract14 v)) ∧
    (v &&& 0x0101 ≠ (if c = 0 then 0x0100 else 0x0101) →
        decodeWord c v = Except.error (c, v)) := by
  constructor
  · intro h
    have hcond : ¬ ((c = 0 ∧ lsbs v ≠ 0x0100) ∨ (c ≠ 0 ∧ lsbs v ≠ 0x0101)) := by
      by_cases hc : c = 0
      · rw [if_pos hc] at h
        rintro (⟨_, hne⟩ | ⟨hne0, _⟩)
        · exact hne h
        · exact hne0 hc
      · rw [if_neg hc] at h
        rintro (⟨h0, _⟩ | ⟨_, hne1⟩)
        · exact hc h0
        · exact hne1 h
    unfold decodeWord
    rw [if_neg hcond]
  · intro h
    have hcond : (c = 0 ∧ lsbs v ≠ 0x0100) ∨ (c ≠ 0 ∧ lsbs v ≠ 0x0101) := by
      by_cases hc : c = 0
      · rw [if_pos hc] at h
        exact Or.inl ⟨hc, h⟩
      · rw [if_neg hc] at h
        exact Or.inr ⟨hc, h⟩
    unfold decodeWord
    rw [if_pos hcond]

/-- Concrete check of sync_validation: channel 0 accepts word 0x0120 (masked
0x0100) and channel 3 rejects word 0x0001 (masked 0x0001). -/
theorem sync_validation_witness :
    decodeWord 0 0x0120 = Except.ok 16 ∧
    decodeWord 3 0x0001 = Except.error (3, 1) := by
  constructor
  · have h := (sync_validation 0 0x0120).1 (by decide)
    rw [show extract14 0x0120 = 16 from by decide] at h
    exact h
  · exact (sync_validation 3 0x0001).2 (by decide)

/-- Claim C3 counterexample: the claim asserts strict monotonicity in the raw
value for arbitrary fullscale and fudge, but at fullscale = 1, fudge = 0 the
calibration is constantly zero, so calibrate 0 is not less than calibrate 1. -/
theorem calibrate_mono_cex : ¬ calibrate 0 1 0 < calibrate 1 1 0 := by
  norm_num [calibrate]

/-- Claim C3 (amended): calibration computes
fudge * fullscale * (v / 2^13 - 1); provided fullscale * fudge is positive,
for all 14-bit inputs the result is strictly monotonically increasing in v,
equals 0 at v = 2^13 when fudge = fullscale = 1, equals -(fullscale * fudge)
at v = 0, and at v = 2^14 - 1 is strictly below fullscale * fudge. -/
theorem calibrate_props (fullscale fudge : ℚ) (hpos : 0 < fullscale * fudge) :
    (∀ v w : Nat, v < w → w ≤ 2 ^ 14 - 1 →
        calibrate v fullscale fudge < calibrate w fullscale fudge) ∧
    calibrate (2 ^ 13) 1 1 = 0 ∧
    calibrate 0 fullscale fudge = -(fullscale * fudge) ∧
    calibrate (2 ^ 14 - 1) fullscale fudge < fullscale * fudge := by
  have hp : 0 < fudge * fullscale := by rw [mul_comm]; exact hpos
  refine ⟨?_, by norm_num [calibrate], ?_, ?_⟩
  · intro v w hvw _
    unfold calibrate
    have h1 : (v : ℚ) < (w : ℚ) := by exact_mod_cast hvw
    have h2 : (v : ℚ) / 2 ^ 13 < (w : ℚ) / 2 ^ 13 :=
      (div_lt_div_iff_of_pos_right (by norm_num)).mpr h1
    exact mul_lt_mul_of_pos_left (by linarith) hp
  · unfold calibrate
    push_cast
    ring
  · unfold calibrate
    have h3 : ((2 ^ 14 - 1 : Nat) : ℚ) / 2 ^ 13 - 1 < 1 := by norm_num
    have h4 := mul_lt_mul_of_pos_left h3 hp
    rw [mul_one] at h4
    linarith [h4, mul_comm fudge fullscale]

/-- Concrete check of calibrate_props at fullscale = 2, fudge = 3. -/
theorem calibrate_props_witness :
    calibrate 0 2 3 = -(2 * 3 : ℚ) ∧ calibrate 100 2 3 < calibrate 200 2 3 :=
  ⟨(calibrate_props 2 3 (by norm_num)).2.2.1,
   (calibrate_props 2 3 (by norm_num)).1 100 200 (by norm_num) (by norm_num)⟩

/-- Claim C2 counterexample: for the command text X02 (expected echo length 3)
with a successful write, a zero-byte echo — whose byte count differs from the
expected length and whose bytes are trivially a byte-for-byte prefix of the
text — yields -EX_UNAVAILABLE (EOF), not the protocol error -EX_PROTOCOL that
the claim requires for every length mismatch. -/
theorem cmd_zero_echo_cex :
    dataq_cmd (fmt_X02X 2) 4 (IoRes.got []) = -EX_UNAVAILABLE ∧
    dataq_cmd (fmt_X02X 2) 4 (IoRes.got []) ≠ -EX_PROTOCOL := by
  constructor <;> decide

/-- Claim C2 (amended): for a command whose formatted text is nonempty and at
most 254 bytes and whose transport write succeeds, the wire bytes are exactly
one null byte followed by the text; the call succeeds iff the echo consists of
exactly the text byte-for-byte; a nonzero-length echo whose byte count differs
from the text length is a protocol error even when it is a byte-for-byte
prefix; a right-length echo with any differing byte is a protocol error; a
zero-byte echo (EOF) yields the Unavailable error instead.  In particular the
command X%02X with timer scaler 2 puts bytes 0x00 X 0 2 on the wire and
requires echo bytes X 0 2. -/
theorem cmd_echo_exact (text bs : List Nat) (wr : Int)
    (hw : 0 < wr) (hne : text ≠ []) (hlen : text.length ≤ 254) :
    (dataq_cmd text wr (IoRes.got bs) = EX_OK ↔ bs = text) ∧
    (bs ≠ [] → bs.length ≠ text.length →
        dataq_cmd text wr (IoRes.got bs) = -EX_PROTOCOL) ∧
    (bs.length = text.length → bs ≠ text →
        dataq_cmd text wr (IoRes.got bs) = -EX_PROTOCOL) ∧
    (bs = [] → dataq_cmd text wr (IoRes.got bs) = -EX_UNAVAILABLE) ∧
    cmdWire text = 0 :: text ∧
    fmt_X02X 2 = [88, 48, 50] ∧ cmdWire (fmt_X02X 2) = [0, 88, 48, 50] := by
  have hw0 : ¬ wr < 0 := by omega
  have hw1 : ¬ wr = 0 := by omega
  have heval : dataq_cmd text wr (IoRes.got bs) =
      (if bs.length = 0 then -EX_UNAVAILABLE
       else if bs.length ≠ text.length then -EX_PROTOCOL
       else if bs ≠ text then -EX_PROTOCOL
       else EX_OK) := by
    unfold dataq_cmd
    rw [if_neg hw0, if_neg hw1]
  refine ⟨?_, ?_, ?_, ?_, cmdWire_short text hlen, by decide,
    by rw [cmdWire_short (fmt_X02X 2) (by decide)]; decide⟩
  · rw [heval]
    constructor
    · intro h
      by_cases h0 : bs.length = 0
      · rw [if_pos h0] at h; exact absurd h (by decide)
      · rw [if_neg h0] at h
        by_cases h1 : bs.length ≠ text.length
        · rw [if_pos h1] at h; exact absurd h (by decide)
        · rw [if_neg h1] at h
          by_cases h2 : bs ≠ text
          · rw [if_pos h2] at h; exact absurd h (by decide)
          · exact not_not.mp h2
    · intro h
      subst h
      have h0 : ¬ bs.length = 0 := fun hz => hne (List.length_eq_zero.mp hz)
      simp [h0]
  · intro hb0 hb1
    have h0 : ¬ bs.length = 0 := fun hz => hb0 (List.length_eq_zero.mp hz)
    rw [heval, if_neg h0, if_pos hb1]
  · intro hb1 hb2
    have h0 : ¬ bs.length = 0 :=
      fun hz => hne (List.length_eq_zero.mp (by omega))
    rw [heval, if_neg h0, if_neg (by omega : ¬ bs.length ≠ text.length),
      if_pos hb2]
  · intro h
    subst h
    rw [heval]
    simp

/-- Concrete check of cmd_echo_exact at the scaler-2 scenario: the exact echo
succeeds and a 2-byte prefix echo is a protocol error. -/
theorem cmd_echo_exact_witness :
    dataq_cmd (fmt_X02X 2) 4 (IoRes.got [88, 48, 50]) = EX_OK ∧
    dataq_cmd (fmt_X02X 2) 4 (IoRes.got [88, 48]) = -EX_PROTOCOL :=
  ⟨((cmd_echo_exact (fmt_X02X 2) [88, 48, 50] 4 (by norm_num) (by decide)
      (by decide)).1).mpr (by decide),
   (cmd_echo_exact (fmt_X02X 2) [88, 48] 4 (by norm_num) (by decide)
      (by decide)).2.1 (by decide) (by decide)⟩

/-- Claim C10: the null-plus-text encoding holds under the implicit bound
text.length ≤ 254: the buffer holds 256 bytes; for texts of at most 254 bytes
the requested write length 1 + len stays within the buffer and the wire bytes
are the null byte followed by the text; for texts of 255 bytes or more the
requested write length exceeds the meaningful bytes actually stored (the null
plus at most 254 text bytes). -/
theorem cmd_buffer_bounds (text : List Nat) :
    (cmdBuf text).length = 256 ∧
    (text.length ≤ 254 → writeLen text ≤ 256 ∧ cmdWire text = 0 :: text) ∧
    (255 ≤ text.length → storedLen text < writeLen text) := by
  refine ⟨?_, fun h => ⟨by unfold writeLen; omega, cmdWire_short text h⟩,
    fun h => by unfold storedLen writeLen; omega⟩
  unfold cmdBuf
  simp [List.length_take, List.length_replicate]
  omega

/-- Concrete check of cmd_buffer_bounds: in-bounds wire bytes for the 3-byte
text X02, and a 255-byte text whose requested write length exceeds the stored
bytes. -/
theorem cmd_buffer_bounds_witness :
    cmdWire [88, 48, 50] = [0, 88, 48, 50] ∧
    storedLen (List.replicate 255 7) < writeLen (List.replicate 255 7) :=
  ⟨((cmd_buffer_bounds [88, 48, 50]).2.1 (by decide)).2,
   (cmd_buffer_bounds (List.replicate 255 7)).2.2
     (by simp only [List.length_replicate]; omega)⟩

/-- Claim C5: with no termination signal observed, the blocking read result is
classified as: a negative result is the IoError; zero bytes is the Unavailable
error (peer closed); a nonzero count different from 2 * n_chans is the
protocol error; and only a read of exactly 2 * n_chans bytes proceeds to the
decode phase. -/
theorem recv_read_classification (n : Int) (buf : List Nat) (n_chans : Nat)
    (fullscale fudge : ℚ) (values : List ℚ) :
    (n < 0 →
        dataq_recv 0 n buf n_chans fullscale fudge values
          = (values, RecvOutcome.ioError)) ∧
    (n = 0 →
        dataq_recv 0 n buf n_chans fullscale fudge values
          = (values, RecvOutcome.eof)) ∧
    (0 < n → n ≠ 2 * (n_chans : Int) →
        dataq_recv 0 n buf n_chans fullscale fudge values
          = (values, RecvOutcome.shortRead)) ∧
    (n = 2 * (n_chans : Int) → 0 < n_chans →
        dataq_recv 0 n buf n_chans fullscale fudge values
          = decodePhase fullscale fudge (buf.take n_chans) values) ∧
    recvCode RecvOutcome.ioError = -EX_IOERR ∧
    recvCode RecvOutcome.eof = -EX_UNAVAILABLE ∧
    recvCode RecvOutcome.shortRead = -EX_PROTOCOL := by
  refine ⟨?_, ?_, ?_, ?_, rfl, rfl, rfl⟩ <;> unfold dataq_recv
  · intro h
    rw [if_neg (by decide), if_pos h]
  · intro h
    rw [if_neg (by decide), if_neg (by omega), if_pos h]
  · intro h0 h1
    rw [if_neg (by decide), if_neg (by omega), if_neg (by omega), if_pos h1]
  · intro h0 h1
    rw [if_neg (by decide), if_neg (by omega), if_neg (by omega),
      if_neg (by omega)]

/-- Concrete check of recv_read_classification for 6 channels: read results
-1, 0 and 5 map to IoError, Unavailable and the protocol error. -/
theorem recv_read_classification_witness :
    dataq_recv 0 (-1) [] 6 1 1 [] = ([], RecvOutcome.ioError) ∧
    dataq_recv 0 0 [] 6 1 1 [] = ([], RecvOutcome.eof) ∧
    dataq_recv 0 5 [] 6 1 1 [] = ([], RecvOutcome.shortRead) :=
  ⟨(recv_read_classification (-1) [] 6 1 1 []).1 (by norm_num),
   (recv_read_classification 0 [] 6 1 1 []).2.1 rfl,
   (recv_read_classification 5 [] 6 1 1 []).2.2.1 (by norm_num) (by decide)⟩

/-- Claim C6 counterexample: in the claim's own 6-channel scenario (channel 0
word 0x0120, channels 1-2 valid, channel 3 masked 0x0001) the receive does
return the sync error citing channel 3, but the caller-visible output array IS
partially populated: starting from sentinel values 9, the entry for channel 0
has been overwritten with the decoded value -511/512, contradicting the
claim's assertion that channels 0 through 2 are not populated. -/
theorem frame_partial_population_cex :
    (dataq_recv 0 12 [0x0120, 0x0101, 0x0101, 0x0001, 0x0101, 0x0101] 6 1 1
        [9, 9, 9, 9, 9, 9]).2 = RecvOutcome.syncError 3 ∧
    (dataq_recv 0 12 [0x0120, 0x0101, 0x0101, 0x0001, 0x0101, 0x0101] 6 1 1
        [9, 9, 9, 9, 9, 9]).1.get? 0 ≠ some (9 : ℚ) := by
  refine ⟨by decide, ?_⟩
  have hv : (dataq_recv 0 12 [0x0120, 0x0101, 0x0101, 0x0001, 0x0101, 0x0101]
        6 1 1 [9, 9, 9, 9, 9, 9]).1.get? 0
      = some (calibrate (extract14 0x0120) 1 1) := rfl
  rw [hv, show extract14 0x0120 = 16 from by decide]
  intro hcontra
  have h9 : calibrate 16 1 1 = (9 : ℚ) := Option.some.inj hcontra
  norm_num [calibrate] at h9

/-- Claim C6 (amended): for the 6-channel frame with channel 0 word 0x0120
(masked 0x0100, correct) and channel 3 word masked 0x0001 (incorrect), the
receive aborts at the first sync mismatch with the sync error citing channel
index 3 (C return code -EX_PROTOCOL) and no successful result; the output
array entries for channels 0 through 2, however, have already been overwritten
with the decoded values of this frame when the abort happens, while channels 3
through 5 keep their previous contents. -/
theorem frame_abort_scenario :
    dataq_recv 0 12 [0x0120, 0x0101, 0x0101, 0x0001, 0x0101, 0x0101] 6 1 1
        [9, 9, 9, 9, 9, 9]
      = ([-(511 / 512 : ℚ), -1, -1, 9, 9, 9], RecvOutcome.syncError 3) ∧
    recvCode (RecvOutcome.syncError 3) = -EX_PROTOCOL := by
  refine ⟨?_, rfl⟩
  have hv : dataq_recv 0 12 [0x0120, 0x0101, 0x0101, 0x0001, 0x0101, 0x0101]
        6 1 1 [9, 9, 9, 9, 9, 9]
      = ([calibrate (extract14 0x0120) 1 1, calibrate (extract14 0x0101) 1 1,
          calibrate (extract14 0x0101) 1 1, 9, 9, 9],
         RecvOutcome.syncError 3) := rfl
  rw [hv, show extract14 0x0120 = 16 from by decide,
    show extract14 0x0101 = 0 from by decide]
  norm_num [calibrate]

/-- Claim C7 counterexample: when signal 2 (SIGINT) was observed during the
read, the re-raise — the point at which the restored previous disposition
fires — happens inside the call, strictly before the return event: the trace
contains exactly one raise event and no raise event after the first return
event, contradicting the claim that the disposition fires after the call
returns. -/
theorem recv_raise_before_return_cex :
    (recvTrace 2 12 [] 6 1 1 []).countP isRaise = 1 ∧
    (afterRet (recvTrace 2 12 [] 6 1 1 [])).countP isRaise = 0 ∧
    (recvTrace 2 12 [] 6 1 1 []).getLast? = some (Ev.ret (-EX_UNAVAILABLE)) := by
  refine ⟨?_, ?_, ?_⟩ <;> decide

/-- Claim C7 (amended): every receive call installs the temporary handlers for
SIGINT, SIGHUP and SIGTERM immediately before the blocking read and restores
the previous handlers immediately after it, regardless of the read's outcome;
when a termination signal was observed during the read, the call re-raises it
exactly once — so the previous disposition fires exactly once, during the
call, after the handlers are restored and before the call returns — and
returns the Unavailable error. -/
theorem recv_signal_window (signalled : Nat) (n : Int) (buf : List Nat)
    (n_chans : Nat) (fullscale fudge : ℚ) (values : List ℚ) :
    ((recvTrace signalled n buf n_chans fullscale fudge values).take 7
        = [Ev.install SIGINT, Ev.install SIGHUP, Ev.install SIGTERM,
           Ev.readCall,
           Ev.restore SIGINT, Ev.restore SIGHUP, Ev.restore SIGTERM]) ∧
    (signalled ≠ 0 →
      recvTrace signalled n buf n_chans fullscale fudge values
        = [Ev.install SIGINT, Ev.install SIGHUP, Ev.install SIGTERM,
           Ev.readCall,
           Ev.restore SIGINT, Ev.restore SIGHUP, Ev.restore SIGTERM,
           Ev.raiseSig signalled, Ev.ret (-EX_UNAVAILABLE)]) := by
  constructor
  · unfold recvTrace
    rw [List.take_append_eq_append_take]
    simp
  · intro h
    unfold recvTrace
    rw [if_pos h]
    rfl

/-- Concrete check of recv_signal_window with signal 2 observed. -/
theorem recv_signal_window_witness :
    recvTrace 2 12 [] 6 1 1 []
      = [Ev.install SIGINT, Ev.install SIGHUP, Ev.install SIGTERM,
         Ev.readCall,
         Ev.restore SIGINT, Ev.restore SIGHUP, Ev.restore SIGTERM,
         Ev.raiseSig 2, Ev.ret (-EX_UNAVAILABLE)] :=
  (recv_signal_window 2 12 [] 6 1 1 []).2 (by decide)

/-- Claim C8 counterexample: the global flag is not transient.  After a first
receive observed signal 2 and returned the shutdown result, the driver never
clears the flag, so a second receive call during which no new signal arrives —
given a perfectly valid 6-channel frame — still re-raises the old signal and
still returns the Unavailable result, contrary to the claim that it is
unaffected. -/
theorem signal_flag_not_transient_cex :
    (dataq_recv 2 12 [0x0100, 0x0101, 0x0101, 0x0101, 0x0101, 0x0101] 6 1 1
        [0, 0, 0, 0, 0, 0]).2 = RecvOutcome.signalAbort 2 ∧
    signalledAfterRecv 2 = 2 ∧
    (dataq_recv (signalledAfterRecv 2) 12
        [0x0100, 0x0101, 0x0101, 0x0101, 0x0101, 0x0101] 6 1 1
        [0, 0, 0, 0, 0, 0]).2 = RecvOutcome.signalAbort 2 ∧
    raisesSignal (signalledAfterRecv 2) = true ∧
    recvCode (RecvOutcome.signalAbort 2) = -EX_UNAVAILABLE := by
  refine ⟨?_, rfl, ?_, rfl, rfl⟩ <;> decide

/-- Claim C8 (amended): the flag set by the signal handler is consulted
immediately after the blocking receive returns, but it is persistent, not
transient: the driver body never clears it, so once it holds a nonzero signal,
every subsequent receive call during which no new signal arrives still
re-raises that signal and returns the Unavailable result, with the flag still
set afterwards.  (In the reference CLI this is unobservable, since its main
loop exits at the first signal.) -/
theorem signal_flag_persistent (s : Nat) (hs : s ≠ 0) (n : Int)
    (buf : List Nat) (n_chans : Nat) (fullscale fudge : ℚ)
    (values : List ℚ) :
    signalledAfterRecv s = s ∧
    dataq_recv (signalledAfterRecv s) n buf n_chans fullscale fudge values
      = (values, RecvOutcome.signalAbort s) ∧
    raisesSignal (signalledAfterRecv s) = true ∧
    recvCode (RecvOutcome.signalAbort s) = -EX_UNAVAILABLE := by
  refine ⟨rfl, ?_, ?_, rfl⟩
  · unfold dataq_recv signalledAfterRecv
    rw [if_pos hs]
  · unfold raisesSignal signalledAfterRecv
    simpa using hs

/-- Concrete check of signal_flag_persistent at signal 15 (SIGTERM). -/
theorem signal_flag_persistent_witness :
    dataq_recv (signalledAfterRecv 15) 12 [] 6 1 1 []
      = ([], RecvOutcome.signalAbort 15) :=
  (signal_flag_persistent 15 (by decide) 12 [] 6 1 1 []).2.1

/-- Claim C9: a connect request for more than MAXCHAN = 32 channels fails with
the configuration (data) error before any externally visible action: no socket
is created or connected, no hostname is resolved, nothing is written; and that
error code is distinct from the protocol error code. -/
theorem connect_channel_guard (n_chans : Int) (w : ConnWorld)
    (h : 32 < n_chans) :
    dataq_connect n_chans w = (-EX_DATAERR, ([] : List ConnEv)) ∧
    (-EX_DATAERR : Int) ≠ -EX_PROTOCOL := by
  refine ⟨?_, by decide⟩
  unfold dataq_connect
  rw [if_pos (by exact_mod_cast h)]

/-- Concrete check of connect_channel_guard at 33 requested channels. -/
theorem connect_channel_guard_witness :
    dataq_connect 33
        { socketOk := true, sockoptOk := true, dnsOk := true,
          connectOk := true, writeStopOk := true, cmdResX := 0, cmdResM := 0,
          cmdResL := 0, cmdResC := 0, cmdResS := 0, sockfd := 3 }
      = (-EX_DATAERR, ([] : List ConnEv)) :=
  (connect_channel_guard 33
      { socketOk := true, sockoptOk := true, dnsOk := true,
        connectOk := true, writeStopOk := true, cmdResX := 0, cmdResM := 0,
        cmdResL := 0, cmdResC := 0, cmdResS := 0, sockfd := 3 }
      (by norm_num)).1

set_option maxRecDepth 10000 in
set_option maxHeartbeats 4000000 in
/-- Exhaustive round-trip check over the two 7-bit halves of a 14-bit value,
for channel 0 and for a representative nonzero channel. -/
theorem roundtrip_exhaustive : ∀ a < 128, ∀ b < 128,
    decodeWord 0 (encodeWord 0 (128 * a + b)) = Except.ok (128 * a + b) ∧
    decodeWord 1 (encodeWord 1 (128 * a + b)) = Except.ok (128 * a + b) := by
  decide

/-- A successful decode at channel 1 transfers to any other nonzero channel:
the sync condition and the extracted value do not depend on the channel index
beyond its being zero or not. -/
theorem decode_ok_of_ne_zero (c w r : Nat) (hc : c ≠ 0)
    (h1 : decodeWord 1 w = Except.ok r) : decodeWord c w = Except.ok r := by
  unfold decodeWord at *
  by_cases hl : lsbs w = 0x0101
  · have hcond1 :
        ¬ ((1 : Nat) = 0 ∧ lsbs w ≠ 0x0100 ∨ (1 : Nat) ≠ 0 ∧ lsbs w ≠ 0x0101) := by
      rintro (⟨h0, _⟩ | ⟨_, hne⟩)
      · exact absurd h0 (by decide)
      · exact hne hl
    have hcondc : ¬ (c = 0 ∧ lsbs w ≠ 0x0100 ∨ c ≠ 0 ∧ lsbs w ≠ 0x0101) := by
      rintro (⟨h0, _⟩ | ⟨_, hne⟩)
      · exact hc h0
      · exact hne hl
    rw [if_neg hcond1] at h1
    rw [if_neg hcondc]
    exact h1
  · rw [if_pos (Or.inr ⟨(by decide : (1 : Nat) ≠ 0), hl⟩)] at h1
    cases h1

/-- Claim C4: the 14-bit measurement is extracted from a 16-bit word w as
((w AND 0xFE00) >> 2) OR ((w AND 0x00FE) >> 1), and the extraction
round-trips: re-encoding any 14-bit value m into a word (high 7 bits of m in
word bits 15:9, low 7 bits in word bits 7:1, the sync flag bits 8 and 0 set
correctly for the channel) and decoding that word again yields exactly m. -/
theorem extract_roundtrip :
    (∀ v : Nat,
        extract14 v = ((v &&& 0xFE00) >>> 2) ||| ((v &&& 0x00FE) >>> 1)) ∧
    (∀ c : Nat, ∀ m < 16384, decodeWord c (encodeWord c m) = Except.ok m) := by
  refine ⟨fun v => rfl, fun c m hm => ?_⟩
  have key := roundtrip_exhaustive (m / 128) (by omega) (m % 128) (by omega)
  rw [Nat.div_add_mod] at key
  by_cases hc : c = 0
  · rw [hc]
    exact key.1
  · have henc : encodeWord c m = encodeWord 1 m := by
      unfold encodeWord expectedSync
      rw [if_neg hc, if_neg (by decide : (1 : Nat) ≠ 0)]
    rw [henc]
    exact decode_ok_of_ne_zero c (encodeWord 1 m) m hc key.2

/-- Concrete check of extract_roundtrip at channel 5 and value 12345. -/
theorem extract_roundtrip_witness :
    decodeWord 5 (encodeWord 5 12345) = Except.ok 12345 :=
  extract_roundtrip.2 5 12345 (by norm_num)

end Dataq

